import Mathlib

/-!
# Verification of the ETL repository's extraction / load / transform pipeline

Shallow embedding of the repository's Python sources:

* `src/main.py`   — paginated PokeAPI extraction loop (`extract_data`,
  `iterate_extract_data`) staging pages as parquet files;
* `src/load.py`   — `load_data_to_duckdb`, bulk-loading staged files into the
  `pokedex` table and upserting the `metadata` watermark table;
* `src/transform.py` — derived-id extraction via the regex `/pokemon/(\d+)/`;
* `src/extracts.py` — TomTom traffic variant: `fetch_data_from_api`,
  `parse_traffic_response_to_dataframe`, `extract_traffic_data_for_areas`.

External effects (HTTP responses, filesystem, the DuckDB engine) are made
explicit: the HTTP layer is a function from URL to an outcome, the filesystem
is the list of files written together with their row contents, and the two
DuckDB tables are Lean lists of rows.  Python exceptions that escape a
function are `Except` errors; exceptions caught inside a function are handled
exactly where the source catches them.
-/

namespace ETL

/-! ## PokeAPI records and the staged-file model (src/main.py) -/

/-- One element of the PokeAPI `results` list: a mapping with a `name` and a
`url` field (src/main.py builds the dataframe directly from this list). -/
structure PokeRecord where
  name : String
  url : String
deriving DecidableEq, Repr

/-- The staged-file path built in `extract_data` (src/main.py line 93):
`os.path.join(output_dir, f"pokemon_offset_{offset}.parquet")`. -/
def pokemonFilePath (outputDir : String) (offset : Int) : String :=
  outputDir ++ "/pokemon_offset_" ++ toString offset ++ ".parquet"

/-- Result of one `extract_data` call: the returned pair
`(file_path, updated_offset)` plus the list of parquet files the call wrote
(path together with row contents), making the filesystem effect explicit. -/
structure ExtractResult where
  filePath : Option String
  updatedOffset : Int
  written : List (String × List PokeRecord)
deriving DecidableEq, Repr

/-- Model of `extract_data` (src/main.py lines 59–101).  The HTTP layer is abstracted
as `api : offset → batch size → results list` (the success path of
`requests.get` + `response.json().get("results", [])`; a non-200 status
raises out of the function and is not modelled here).  An empty results list
returns the sentinel `(None, -1)` and writes nothing; otherwise the page is
written to `pokemon_offset_{offset}.parquet` and the offset advances by the
full `batch_size`. -/
def extract_data (api : Int → Int → List PokeRecord)
    (offset batchSize : Int) (outputDir : String) : ExtractResult :=
  let results := api offset batchSize
  if results = [] then
    { filePath := none, updatedOffset := -1, written := [] }
  else
    { filePath := some (pokemonFilePath outputDir offset)
      updatedOffset := offset + batchSize
      written := [(pokemonFilePath outputDir offset, results)] }

/-- The `for i in range(batch_limit)` loop of `iterate_extract_data`
(src/main.py lines 39–57), as fuel recursion.  Returns
`(all_records, file_paths, fetched offsets)`; the third component records the
offset of every page the loop actually requested, so that termination
properties ("does not request a further page") are statable.  The loop breaks
when `updated_offset == -1`; otherwise it reads the just-written parquet file
back (`pd.read_parquet`), extends `all_records`, appends the path and
continues at the updated offset. -/
def iterGo (api : Int → Int → List PokeRecord) :
    Nat → Int → List PokeRecord × List String × List Int
  | 0, _ => ([], [], [])
  | Nat.succ n, off =>
    let r := extract_data api off 100 "data"
    if r.updatedOffset = -1 then ([], [], [off])
    else
      let rest := iterGo api n r.updatedOffset
      ((r.written.map Prod.snd).flatten ++ rest.1,
       r.filePath.toList ++ rest.2.1,
       off :: rest.2.2)

/-- Model of `iterate_extract_data` (src/main.py lines 39–57): `batch_limit = 50`
iterations starting from `updated_offset = 0`; returns
`(all_records, file_paths)`. -/
def iterate_extract_data (api : Int → Int → List PokeRecord) :
    List PokeRecord × List String :=
  ((iterGo api 50 0).1, (iterGo api 50 0).2.1)

/-- The offsets of the pages a full `iterate_extract_data` run requests. -/
def requestedOffsets (api : Int → Int → List PokeRecord) : List Int :=
  (iterGo api 50 0).2.2

/-- An API whose every page holds exactly one record: every fetched page is
strictly shorter than the requested batch size of 100, yet never empty. -/
def shortPageApi : Int → Int → List PokeRecord :=
  fun _ _ => [{ name := "bulbasaur", url := "https://pokeapi.co/api/v2/pokemon/1/" }]

/-- An API with two full-looking pages (offsets 0 and 100) and nothing after:
pages at offsets `0` and `100` hold one record each, every later page is
empty. -/
def twoPageApi : Int → Int → List PokeRecord :=
  fun off _ =>
    if off = 0 then [{ name := "bulbasaur", url := "https://pokeapi.co/api/v2/pokemon/1/" }]
    else if off = 100 then [{ name := "ivysaur", url := "https://pokeapi.co/api/v2/pokemon/2/" }]
    else []

/-! ## Derived-id extraction: `regexp_extract(url, '/pokemon/(\d+)/', 1)`
(src/load.py lines 40–48, src/transform.py lines 32–39) -/

/-- Value of a digit string, most significant digit first. -/
def digitsToNat (l : List Char) : Nat :=
  l.foldl (fun a c => 10 * a + (c.toNat - '0'.toNat)) 0

/-- Splits a maximal leading run of decimal digits off a character list
(the `\d+` part of the pattern, matched greedily). -/
def takeDigits : List Char → List Char × List Char
  | [] => ([], [])
  | c :: cs =>
    if c.isDigit then
      let p := takeDigits cs
      (c :: p.1, p.2)
    else ([], c :: cs)

/-- Tries to match `/pokemon/(\d+)/` at the head of the list, returning the
captured digit group.  Greedy matching of `\d+` needs no backtracking here:
any shorter digit run is followed by a digit, which can never satisfy the
trailing `/`, so taking the maximal run is exact. -/
def matchPokemonAt : List Char → Option (List Char)
  | '/' :: 'p' :: 'o' :: 'k' :: 'e' :: 'm' :: 'o' :: 'n' :: '/' :: rest =>
    let p := takeDigits rest
    if p.1 ≠ [] ∧ p.2.head? = some '/' then some p.1 else none
  | _ => none

/-- Leftmost match of `/pokemon/(\d+)/` in a character list: the regex engine
scans candidate start positions left to right. -/
def findPokemonGroup : List Char → Option (List Char)
  | [] => none
  | c :: cs =>
    match matchPokemonAt (c :: cs) with
    | some g => some g
    | none => findPokemonGroup cs

/-- Model of `CAST(regexp_extract(url, '/pokemon/(\d+)/', 1) AS INTEGER)`:
`regexp_extract` yields the captured group of the first match, or the empty
string when there is no match — in which case the `CAST` (and with it the
whole `INSERT` statement) fails, modelled as `none`. -/
def pokemonIdOfUrl (url : String) : Option Int :=
  (findPokemonGroup url.data).map fun g => (digitsToNat g : Int)

/-! ## Bulk loader and watermark table (src/load.py) -/

/-- A row of the `pokedex` destination table (src/load.py lines 17–24). -/
structure PokedexRow where
  last_id : Int
  pokemon_id : Int
  name : String
  url : String
deriving DecidableEq, Repr

/-- The DuckDB state touched by `load_data_to_duckdb`: the `pokedex` table and
the single-column `metadata` watermark table.  An absent table is represented
as the empty list, so `CREATE TABLE IF NOT EXISTS` is the identity here (both
creates run before any use of the tables inside the function). -/
structure Db where
  pokedex : List PokedexRow
  metadata : List (Option Int)
deriving DecidableEq, Repr

/-- A staged parquet file: its path and the rows it holds. -/
structure ParquetFile where
  path : String
  rows : List PokeRecord
deriving DecidableEq, Repr

/-- Does the second list start with the first one? -/
def startsWithChars : List Char → List Char → Bool
  | [], _ => true
  | _ :: _, [] => false
  | a :: as, b :: bs => a = b && startsWithChars as bs

/-- Chunk of `l` before the first occurrence of `sep`, and the remainder
after that occurrence when there is one. -/
def takeUntilSep (sep : List Char) : List Char → List Char × Option (List Char)
  | [] => ([], none)
  | c :: cs =>
    if startsWithChars sep (c :: cs) then ([], some ((c :: cs).drop sep.length))
    else
      let p := takeUntilSep sep cs
      (c :: p.1, p.2)

/-- Fuel-driven splitting on a non-empty separator; with fuel `l.length + 1`
the fuel can never run out, since each found separator consumes at least one
character of the input. -/
def splitGo (sep : List Char) : Nat → List Char → List (List Char)
  | 0, l => [l]
  | Nat.succ n, l =>
    match takeUntilSep sep l with
    | (chunk, none) => [chunk]
    | (chunk, some rest) => chunk :: splitGo sep n rest

/-- Python `s.split(sep)` for a non-empty separator string. -/
def pySplit (sep s : String) : List String :=
  (splitGo sep.data (s.data.length + 1) s.data).map String.mk

/-- Python `s.replace(old, new)` for a non-empty `old`, i.e.
`new.join(s.split(old))`. -/
def pyReplace (old new s : String) : String :=
  String.mk (List.intercalate new.data ((pySplit old s).map String.data))

/-- Python `int(s)`: optional sign followed by at least one decimal digit
(whitespace/underscore forms do not occur in this pipeline's file names);
anything else raises `ValueError`, modelled as `none`. -/
def pyInt (s : String) : Option Int :=
  match s.data with
  | '-' :: ds =>
    if ds ≠ [] ∧ ds.all Char.isDigit then some (-(digitsToNat ds : Int)) else none
  | '+' :: ds =>
    if ds ≠ [] ∧ ds.all Char.isDigit then some (digitsToNat ds : Int) else none
  | ds =>
    if ds ≠ [] ∧ ds.all Char.isDigit then some (digitsToNat ds : Int) else none

/-- Model of `file_path.replace("\\", "/")` (src/load.py line 35). -/
def normalizePath (p : String) : String :=
  pyReplace "\\" "/" p

/-- Model of `int(normalized_path.split("_")[-1].split(".")[0])` (src/load.py line 37):
the cursor value a file name carries, e.g. `data/pokemon_offset_100.parquet`
↦ `100`.  Python `str.split` with an explicit separator never returns an
empty list, so the `getLastD`/`headD` defaults are never consulted. -/
def lastIdOfPath (p : String) : Option Int :=
  pyInt ((pySplit "." ((pySplit "_" p).getLastD "")).headD "")

/-- The rows the `INSERT INTO pokedex … FROM read_parquet(?)` statement
(src/load.py lines 40–48) adds for one file: every source row, tagged with
the file's `last_id` and the derived `pokemon_id`.  If any row's URL has no
`/pokemon/(\d+)/` match the `CAST` fails and the statement errors. -/
def rowsOfFile (lastId : Int) (f : ParquetFile) : Option (List PokedexRow) :=
  f.rows.mapM fun r =>
    (pokemonIdOfUrl r.url).map fun pid =>
      { last_id := lastId, pokemon_id := pid, name := r.name, url := r.url }

/-- Model of `UPDATE metadata SET last_id = ? WHERE last_id IS NOT NULL`
(src/load.py lines 62–64 and 121–123): only non-null rows are touched. -/
def metadataUpdateNonNull (v : Int) (m : List (Option Int)) : List (Option Int) :=
  m.map fun x => x.map fun _ => v

/-- First per-file body of `load_data_to_duckdb` (src/load.py lines 34–66):
insert the file's rows, then upsert the watermark by checking
`SELECT COUNT(*) FROM metadata` first and updating or inserting. -/
def loadFilePass1 (db : Db) (f : ParquetFile) : Except Unit Db :=
  match lastIdOfPath (normalizePath f.path) with
  | none => Except.error ()
  | some newLastId =>
    match rowsOfFile newLastId f with
    | none => Except.error ()
    | some rows =>
      let md :=
        if db.metadata.length > 0 then metadataUpdateNonNull newLastId db.metadata
        else db.metadata ++ [some newLastId]
      Except.ok { pokedex := db.pokedex ++ rows, metadata := md }

/-- Second per-file body of `load_data_to_duckdb` (src/load.py lines 95–127),
reached after the dead string literal at line 69: insert the file's rows
again, `UPDATE … WHERE last_id IS NOT NULL` first, then insert a watermark
row only if the table is still empty. -/
def loadFilePass2 (db : Db) (f : ParquetFile) : Except Unit Db :=
  match lastIdOfPath (normalizePath f.path) with
  | none => Except.error ()
  | some newLastId =>
    match rowsOfFile newLastId f with
    | none => Except.error ()
    | some rows =>
      let md1 := metadataUpdateNonNull newLastId db.metadata
      let md := if md1.length = 0 then md1 ++ [some newLastId] else md1
      Except.ok { pokedex := db.pokedex ++ rows, metadata := md }

/-- Model of `load_data_to_duckdb` (src/load.py lines 1–129).  The function raises on
an empty file list; otherwise, because its body was duplicated (the string
literal at line 69 is a dead expression, not the end of the function), one
call processes the whole file list twice: once with the pass‑1 upsert order,
then once more with the pass‑2 order.  A mid-run SQL/parse error propagates
as `Except.error` (the partially mutated Db of the failing real run is not
tracked: every theorem below about state is conditioned on `Except.ok`). -/
def load_data_to_duckdb (files : List ParquetFile) (db : Db) : Except Unit Db :=
  if files = [] then Except.error ()
  else
    match files.foldlM loadFilePass1 db with
    | Except.error e => Except.error e
    | Except.ok db1 => files.foldlM loadFilePass2 db1

/-! ## Page fetcher (src/extracts.py lines 82–112) -/

/-- Outcome of `requests.get(url, timeout=…)`: either a response with a
status code and a body, or a `requests.exceptions.RequestException`
(connection error, timeout, too many redirects, …). -/
inductive HttpOutcome where
  | response (status : Nat) (body : String)
  | netError
deriving DecidableEq, Repr

/-- Model of `fetch_data_from_api` (src/extracts.py lines 82–112): `requests.get`
inside `try`, then `response.raise_for_status()` — which raises `HTTPError`
(a `RequestException`) exactly for status codes in `[400, 600)` — then
`return response.text`.  Every `RequestException` is caught and turned into
`None`; nothing escapes the function for ordinary connectivity failures. -/
def fetch_data_from_api (o : HttpOutcome) : Option String :=
  match o with
  | .netError => none
  | .response st body => if 400 ≤ st ∧ st < 600 then none else some body

/-- Holds when `status` lies in `[200, 300)`, the "HTTP success" notion the spec speaks of. -/
def is2xx (st : Nat) : Bool :=
  decide (200 ≤ st ∧ st < 300)

/-! ## XML record parser (src/extracts.py lines 127–233) -/

/-- An XML element as `xml.etree.ElementTree` exposes it: tag, optional
text, and the list of direct children. -/
inductive Xml where
  | elem (tag : String) (text : Option String) (children : List Xml)

def Xml.tag : Xml → String
  | .elem t _ _ => t

def Xml.text : Xml → Option String
  | .elem _ t _ => t

def Xml.children : Xml → List Xml
  | .elem _ _ c => c

/-- Model of `Element.find(tag)`: the first direct child with the given tag. -/
def findTag (tag : String) : List Xml → Option Xml
  | [] => none
  | x :: xs => if x.tag = tag then some x else findTag tag xs

/-- A cell of the resulting dataframe: pandas object/float64/bool values,
with both `None` and `NaN` collapsed into `null`.  Numbers are modelled as
rationals: the claims below never depend on binary floating-point rounding,
only on whether a value parsed at all. -/
inductive Cell where
  | null
  | str (s : String)
  | num (q : Rat)
  | boolean (b : Bool)
deriving DecidableEq, Repr

/-- Python `float(s)` / the numeric literals `pd.to_numeric` accepts,
restricted to plain decimal literals (optional sign, digits, optional
fractional part) — the only shapes this API's fields take; exponent, `inf`
and `nan` spellings are treated as parse failures. -/
def pyFloat (s : String) : Option Rat :=
  let signed : List Char → Option Rat := fun l =>
    let p := takeDigits l
    match p.2 with
    | [] => if p.1 ≠ [] then some (digitsToNat p.1 : Rat) else none
    | '.' :: fr =>
      let f := takeDigits fr
      if f.2 = [] ∧ (p.1 ≠ [] ∨ f.1 ≠ []) then
        some ((digitsToNat p.1 : Rat) + (digitsToNat f.1 : Rat) / ((10 : Rat) ^ f.1.length))
      else none
    | _ => none
  match s.data with
  | '-' :: l => (signed l).map Neg.neg
  | '+' :: l => signed l
  | l => signed l

/-- Model of `element.text if element is not None else None`, for one scalar tag of
the `scalar_tags` list (src/extracts.py lines 151–163). -/
def scalarOf (root : Xml) (tag : String) : Option String :=
  (findTag tag root.children).bind Xml.text

/-- Cell a raw scalar becomes when its column is left as object dtype. -/
def strCell : Option String → Cell
  | none => .null
  | some s => .str s

/-- Model of `pd.to_numeric(col, errors='coerce')` on one raw scalar: a missing value
or an unparseable string becomes `NaN` (src/extracts.py lines 203–207). -/
def numericOf : Option String → Cell
  | none => .null
  | some s =>
    match pyFloat s with
    | some q => .num q
    | none => .null

/-- Python `str(x)` on a raw scalar: `str(None)` is the string `"None"`. -/
def pyStrOfOpt : Option String → String
  | none => "None"
  | some s => s

/-- Python `str.lower()` restricted to ASCII, which covers every value this
API sends for its scalar fields (`true`, `False`, road class codes, …). -/
def asciiLower (s : String) : String :=
  String.mk (s.data.map fun c =>
    if 'A' ≤ c ∧ c ≤ 'Z' then Char.ofNat (c.toNat + 32) else c)

/-- Model of `df['roadClosure'].astype(str).str.lower() == 'true'`
(src/extracts.py lines 209–211): the column becomes plain booleans; a
missing value stringifies to `"None"` and therefore compares as `False`. -/
def roadClosureOf (v : Option String) : Cell :=
  .boolean (asciiLower (pyStrOfOpt v) == "true")

/-- One latitude/longitude child of a `coordinate` element
(src/extracts.py lines 175–178): absent element or falsy text gives `None`;
non-empty text must parse with `float(…)`, else the `ValueError` escapes to
the outer `except` (the `Except.error` case). -/
def coordVal (x : Xml) (tag : String) : Except Unit (Option Rat) :=
  match findTag tag x.children with
  | none => Except.ok none
  | some e =>
    match e.text with
    | none => Except.ok none
    | some t =>
      if t = "" then Except.ok none
      else
        match pyFloat t with
        | some v => Except.ok (some v)
        | none => Except.error ()

/-- One `coordinate` element: kept only when both latitude and longitude are
present and parse (src/extracts.py lines 174–186). -/
def coordPair (x : Xml) : Except Unit (Option (Rat × Rat)) := do
  let la ← coordVal x "latitude"
  let lo ← coordVal x "longitude"
  match la, lo with
  | some a, some b => Except.ok (some (a, b))
  | _, _ => Except.ok none

/-- The coordinate list of the document (src/extracts.py lines 168–190):
`root.find('coordinates')`, then its direct `coordinate` children in order,
dropping pairs with missing parts; a `float(…)` failure aborts the parse. -/
def collectCoords (root : Xml) : Except Unit (List (Rat × Rat)) :=
  match findTag "coordinates" root.children with
  | none => Except.ok []
  | some ce => do
    let pairs ← (ce.children.filter fun c => c.tag = "coordinate").mapM coordPair
    Except.ok (pairs.filterMap id)

/-- One row of the parsed traffic dataframe, after the dtype conversions. -/
structure TrafficRow where
  frc : Cell
  currentSpeed : Cell
  freeFlowSpeed : Cell
  currentTravelTime : Cell
  freeFlowTravelTime : Cell
  confidence : Cell
  roadClosure : Cell
  coordinate_count : Nat
  coordinates : List (Rat × Rat)
deriving DecidableEq, Repr

/-- Model of `parse_traffic_response_to_dataframe` (src/extracts.py lines 127–233).
The input is the parse tree of the XML text: `none` stands both for a falsy
`xml_data` argument (the early `return pd.DataFrame()`) and for malformed
XML (`ET.ParseError`, also yielding an empty dataframe).  A successful parse
produces exactly one row; an exception from `float(…)` while processing
coordinates is caught by the outer handler and yields an empty dataframe. -/
def parse_traffic_response_to_dataframe (xmlData : Option Xml) : List TrafficRow :=
  match xmlData with
  | none => []
  | some root =>
    match collectCoords root with
    | .error _ => []
    | .ok coords =>
      [{ frc := strCell (scalarOf root "frc")
         currentSpeed := numericOf (scalarOf root "currentSpeed")
         freeFlowSpeed := numericOf (scalarOf root "freeFlowSpeed")
         currentTravelTime := numericOf (scalarOf root "currentTravelTime")
         freeFlowTravelTime := numericOf (scalarOf root "freeFlowTravelTime")
         confidence := numericOf (scalarOf root "confidence")
         roadClosure := roadClosureOf (scalarOf root "roadClosure")
         coordinate_count := coords.length
         coordinates := coords }]

/-! ## Traffic extraction loop (src/extracts.py lines 244–299) -/

/-- Model of `construct_api_url` (src/extracts.py lines 43–78), with the API key an
explicit argument since `CONFIG` reads it from the environment; the loop
passes no extra keyword parameters. -/
def construct_api_url (key point : String) (zoom : Nat) (fmt : String) : String :=
  "https://api.tomtom.com/traffic/services/4/flowSegmentData/absolute"
    ++ "/" ++ toString zoom ++ "/" ++ fmt ++ "?key=" ++ key ++ "&point=" ++ point

/-- Modelled from the spec: `construct_file_path` and `save_to_parquet` are
stubs in src/extracts.py (their bodies are elided with `pass`); per spec
§4.4/§6 the stager writes to a deterministic
`{prefix}_{identifier}_{timestamp}.{ext}` path under the configured folder,
with filesystem-unsafe characters of the point identifier replaced. -/
def construct_file_path (point ts : String) : String :=
  "traffic_data/traffic_" ++ pyReplace "." "-" (pyReplace "," "-" point)
    ++ "_" ++ ts ++ ".parquet"

/-- Model of `extract_traffic_data_for_areas` (src/extracts.py lines 244–299) over a
point list, also recording the staged files with their contents.  The HTTP
layer is `net : url → outcome`; `xmlOf` is `ET.fromstring`, returning `none`
for malformed text.  Per point: fetch; a falsy body (`None` or the empty
string) is skipped as a failed fetch; an empty parsed dataframe is skipped
without staging; otherwise the row-set is staged and its path recorded. -/
def extract_traffic_go (net : String → HttpOutcome) (xmlOf : String → Option Xml)
    (key ts : String) :
    List String → List String × List (String × List TrafficRow)
  | [] => ([], [])
  | p :: ps =>
    match fetch_data_from_api (net (construct_api_url key p 10 "xml")) with
    | some t =>
      if t ≠ "" then
        let df := parse_traffic_response_to_dataframe (xmlOf t)
        if df ≠ [] then
          let fp := construct_file_path p ts
          let rest := extract_traffic_go net xmlOf key ts ps
          (fp :: rest.1, (fp, df) :: rest.2)
        else extract_traffic_go net xmlOf key ts ps
      else extract_traffic_go net xmlOf key ts ps
    | none => extract_traffic_go net xmlOf key ts ps

/-- The path list `extract_traffic_data_for_areas` returns. -/
def extract_traffic_data_for_areas (net : String → HttpOutcome)
    (xmlOf : String → Option Xml) (key ts : String) (points : List String) :
    List String :=
  (extract_traffic_go net xmlOf key ts points).1

/-! ## Concrete inputs used by counterexamples and witnesses -/

/-- An API with no data at all: every page is empty. -/
def emptyApi : Int → Int → List PokeRecord := fun _ _ => []

/-- The staged files a run of `iterate_extract_data` on `twoPageApi` writes:
the pages at offsets 0 and 100, at their `pokemon_offset_…` paths. -/
def run1Files : List ParquetFile :=
  [ { path := pokemonFilePath "data" 0, rows := twoPageApi 0 100 },
    { path := pokemonFilePath "data" 100, rows := twoPageApi 100 100 } ]

/-- A fresh database: neither table has any row. -/
def emptyDb : Db := { pokedex := [], metadata := [] }

/-- A database whose `metadata` table holds a single row with a NULL
`last_id`. -/
def dbNullRow : Db := { pokedex := [], metadata := [none] }

/-- A one-row staged file whose name carries the cursor value 10. -/
def c3File : ParquetFile :=
  { path := "pokedex_10.parquet"
    rows := [{ name := "pikachu", url := "https://pokeapi.co/api/v2/pokemon/25/" }] }

/-- A flow-segment response document with no `roadClosure` child element. -/
def docNoRoadClosure : Xml :=
  .elem "flowSegmentData" none
    [ .elem "frc" (some "FRC0") [],
      .elem "currentSpeed" (some "30") [],
      .elem "freeFlowSpeed" (some "40") [],
      .elem "currentTravelTime" (some "10") [],
      .elem "freeFlowTravelTime" (some "8") [],
      .elem "confidence" (some "0.95") [] ]

/-- An HTTP layer that always answers 200 with a non-XML body. -/
def badNet : String → HttpOutcome := fun _ => .response 200 "<not xml"

/-- An `ET.fromstring` model under which every body is malformed. -/
def noXml : String → Option Xml := fun _ => none

/-! ## C10 — sentinel on empty page, cursor advance by full batch size -/

/-- C10: for every offset and batch size, an empty results list makes
`extract_data` return the sentinel `(None, -1)` (and write no file), and a
non-empty results list makes it return the staged file path together with
`offset + batch_size` — the advance is the full batch size, independent of
how many rows the page actually held. -/
theorem extract_data_sentinel_and_advance (api : Int → Int → List PokeRecord)
    (offset batchSize : Int) (dir : String) :
    (api offset batchSize = [] →
      extract_data api offset batchSize dir =
        { filePath := none, updatedOffset := -1, written := [] })
    ∧ (api offset batchSize ≠ [] →
      extract_data api offset batchSize dir =
        { filePath := some (pokemonFilePath dir offset)
          updatedOffset := offset + batchSize
          written := [(pokemonFilePath dir offset, api offset batchSize)] }) := by
  constructor <;> intro h <;> simp [extract_data, h]

/-- Witness for C10 at the empty API (offset 0) and at the one-record-pages
API (offset 0, batch size 100): the sentinel and the advance to 100. -/
theorem extract_data_sentinel_and_advance_witness :
    extract_data emptyApi 0 100 "data" =
      { filePath := none, updatedOffset := -1, written := [] }
    ∧ extract_data shortPageApi 0 100 "data" =
      { filePath := some (pokemonFilePath "data" 0)
        updatedOffset := 100
        written := [(pokemonFilePath "data" 0, shortPageApi 0 100)] } := by
  refine ⟨(extract_data_sentinel_and_advance emptyApi 0 100 "data").1 rfl, ?_⟩
  have h := (extract_data_sentinel_and_advance shortPageApi 0 100 "data").2 (by decide)
  simpa using h

/-! ## C5 — fetcher returns body on success, `None` on failure -/

/-- C5 counterexample: a 304 response is not a 2xx status, yet
`fetch_data_from_api` returns its body rather than `None` (the source only
turns statuses in `[400, 600)` into an absent result, via
`raise_for_status`). -/
theorem fetch_returns_body_on_304 :
    is2xx 304 = false
    ∧ fetch_data_from_api (.response 304 "Not Modified") = some "Not Modified" := by
  decide

/-- C5 amended: `fetch_data_from_api` never raises past its boundary (it is
a total function into `Option`), and returns `None` exactly on a network
error or a status in `[400, 600)`; any other response — 2xx, but also 1xx
and 3xx — yields the raw body. -/
theorem fetch_none_iff_error_or_4xx_5xx (o : HttpOutcome) :
    fetch_data_from_api o = none ↔
      (o = .netError ∨ ∃ st body, o = .response st body ∧ 400 ≤ st ∧ st < 600) := by
  cases o with
  | netError => simp [fetch_data_from_api]
  | response st body =>
    by_cases h : 400 ≤ st ∧ st < 600 <;> simp [fetch_data_from_api, h]

/-! ## C1 — loop termination -/

/-- C1 counterexample: the page fetched at offset 0 holds 1 row, strictly
fewer than the requested batch size of 100, yet the loop does not stop
there: it goes on to request the page at offset 100 (and in fact runs to the
50-page cap). -/
theorem short_page_does_not_stop_loop :
    (shortPageApi 0 100).length < 100
    ∧ (100 : Int) ∈ requestedOffsets shortPageApi
    ∧ (requestedOffsets shortPageApi).length = 50 := by
  refine ⟨by decide, by decide, by decide⟩

/-- C1 amended: the extraction loop stops only when a fetched page is empty
— in which case that page is the last one requested and nothing is staged —
or when the 50-page cap runs out; after a non-empty page (however short) the
loop always requests a further page while fuel remains. -/
theorem iterate_termination_conditions (api : Int → Int → List PokeRecord)
    (off : Int) (n : Nat) :
    ((iterGo api n off).2.2).length ≤ n
    ∧ (api off 100 = [] → iterGo api (n + 1) off = ([], [], [off]))
    ∧ (0 ≤ off → api off 100 ≠ [] →
        (iterGo api (n + 1) off).2.2 = off :: (iterGo api n (off + 100)).2.2) := by
  refine ⟨?_, ?_, ?_⟩
  · induction n generalizing off with
    | zero => simp [iterGo]
    | succ m ih =>
      simp only [iterGo]
      split
      · simp
      · simpa using Nat.succ_le_succ (ih _)
  · intro h
    simp [iterGo, extract_data, h]
  · intro h0 hne
    have hoff : ¬ (off + 100 = -1) := by omega
    simp [iterGo, extract_data, hne, hoff]

/-- Witness for C1's amended statement: the empty API stops at once with
only offset 0 requested, and the short-page API requests offset 100 right
after offset 0. -/
theorem iterate_termination_conditions_witness :
    iterGo emptyApi 1 0 = ([], [], [0])
    ∧ (iterGo shortPageApi 3 0).2.2 = 0 :: (iterGo shortPageApi 2 100).2.2 := by
  refine ⟨(iterate_termination_conditions emptyApi 0 0).2.1 rfl, ?_⟩
  have h := (iterate_termination_conditions shortPageApi 0 2).2.2 (by decide) (by decide)
  simpa using h

/-! ## C2 — persisted cursor is never read back -/

/-- C2 counterexample: a first run on `twoPageApi` fully processes the pages
at offsets 0 and 100 (staging both files), and loading those files persists
the watermark 100 in `metadata`; yet a re-run of the extraction loop — the
same deterministic call, since `iterate_extract_data` takes no cursor input
at all — again requests offset 0 first, re-fetching a page the prior run had
fully processed. -/
theorem rerun_refetches_processed_page :
    (iterate_extract_data twoPageApi).2 = run1Files.map ParquetFile.path
    ∧ (∃ db : Db, load_data_to_duckdb run1Files emptyDb = Except.ok db
        ∧ db.metadata = [some 100])
    ∧ (requestedOffsets twoPageApi).head? = some 0
    ∧ (0 : Int) ∈ requestedOffsets twoPageApi := by
  refine ⟨by decide, ⟨_, rfl, by decide⟩, by decide, by decide⟩

/-- Helper: the loop's first fetched offset is its starting offset. -/
theorem iterGo_head_offset (api : Int → Int → List PokeRecord)
    (n : Nat) (off : Int) :
    ((iterGo api (n + 1) off).2.2).head? = some off := by
  simp only [iterGo]
  split <;> simp

/-- C2 amended: `iterate_extract_data` hard-codes its starting offset to 0
and consults no persisted state, so every run — including one following a
run that persisted a cursor — fetches the page at offset 0 first. -/
theorem iterate_always_starts_at_zero (api : Int → Int → List PokeRecord) :
    (requestedOffsets api).head? = some 0 :=
  iterGo_head_offset api 49 0

/-! ## C8 — staged file naming and overwriting -/

/-- C8 counterexample: the staged path for offset 0 is the fixed string
`data/pokemon_offset_0.parquet` — built from the output directory and the
offset alone, with no capture-timestamp component — and a re-run's first
`extract_data` call writes to exactly that path, which the prior run's
staging already created: the re-run overwrites instead of creating a new
file. -/
theorem rerun_reuses_existing_path :
    pokemonFilePath "data" 0 ∈ (iterate_extract_data twoPageApi).2
    ∧ (extract_data twoPageApi 0 100 "data").written.map Prod.fst
        = [pokemonFilePath "data" 0]
    ∧ pokemonFilePath "data" 0 = "data/pokemon_offset_0.parquet" := by
  refine ⟨by decide, by decide, by decide⟩

/-- C8 amended: whenever a page is staged, its file path is fully determined
by the output directory and the offset (`{dir}/pokemon_offset_{offset}.parquet`);
in particular two runs staging the same offset — even over different API
states — write the identical path, so a re-run overwrites rather than
creating a new file. -/
theorem staged_path_determined_by_offset
    (api api' : Int → Int → List PokeRecord) (off b b' : Int) (dir : String)
    (h : api off b ≠ []) (h' : api' off b' ≠ []) :
    (extract_data api off b dir).filePath = some (pokemonFilePath dir off)
    ∧ (extract_data api' off b' dir).filePath
        = (extract_data api off b dir).filePath := by
  constructor <;> simp [extract_data, h, h']

/-- Witness for C8's amended statement at the two concrete APIs. -/
theorem staged_path_determined_by_offset_witness :
    (extract_data shortPageApi 0 100 "data").filePath
        = some (pokemonFilePath "data" 0)
    ∧ (extract_data twoPageApi 0 100 "data").filePath
        = (extract_data shortPageApi 0 100 "data").filePath :=
  staged_path_determined_by_offset shortPageApi twoPageApi 0 100 100 "data"
    (by decide) (by decide)

/-! ## C6 — empty row-sets are never staged -/

/-- C6: an empty row-set is never staged, in either pipeline variant.  For
the catalog variant, an empty page makes `extract_data` return the
"nothing written" outcome `(None, -1)` having created no file, and the
extraction loop then stops without recording any path.  For the traffic
variant, a fetched body whose parse yields an empty row-set is skipped: the
per-point loop stages no file and returns no path for that point. -/
theorem empty_rowset_not_staged (api : Int → Int → List PokeRecord)
    (off b : Int) (dir : String) (n : Nat)
    (net : String → HttpOutcome) (xmlOf : String → Option Xml)
    (key ts point t0 : String) :
    (api off b = [] →
      extract_data api off b dir =
        { filePath := none, updatedOffset := -1, written := [] })
    ∧ (api off 100 = [] → iterGo api (n + 1) off = ([], [], [off]))
    ∧ (net (construct_api_url key point 10 "xml") = .response 200 t0 →
        t0 ≠ "" →
        parse_traffic_response_to_dataframe (xmlOf t0) = [] →
        extract_traffic_go net xmlOf key ts [point] = ([], [])) := by
  refine ⟨fun h => by simp [extract_data, h],
          fun h => by simp [iterGo, extract_data, h],
          fun hn ht0 hp => ?_⟩
  simp [extract_traffic_go, hn, fetch_data_from_api, ht0, hp]

/-- Witness for C6: the empty API at offset 0, and a point whose fetched
body fails to parse into any row. -/
theorem empty_rowset_not_staged_witness :
    extract_data emptyApi 0 100 "data" =
      { filePath := none, updatedOffset := -1, written := [] }
    ∧ iterGo emptyApi 1 0 = ([], [], [0])
    ∧ extract_traffic_go badNet noXml "K" "20240101_000000" ["52.41072,4.84239"]
        = ([], []) := by
  have h := empty_rowset_not_staged emptyApi 0 100 "data" 0 badNet noXml
    "K" "20240101_000000" "52.41072,4.84239" "<not xml"
  exact ⟨h.1 rfl, h.2.1 rfl, h.2.2 rfl (by decide) rfl⟩

/-! ## C3 — one call to the bulk loader inserts every file's rows twice -/

/-- The database state one `load_data_to_duckdb` call produces from a fresh
database and the single one-row file `c3File`: the row appears twice. -/
def c3LoadedDb : Db :=
  { pokedex :=
      [ { last_id := 10, pokemon_id := 25, name := "pikachu",
          url := "https://pokeapi.co/api/v2/pokemon/25/" },
        { last_id := 10, pokemon_id := 25, name := "pikachu",
          url := "https://pokeapi.co/api/v2/pokemon/25/" } ]
    metadata := [some 10] }

/-- C3 (code bug): the body of `load_data_to_duckdb` is duplicated — the
string literal at src/load.py line 69 is a dead expression, not the end of
the function — so a single call on a single one-row staged file appends that
row to `pokedex` twice: 2 rows are added where the file holds 1 (the
watermark is still set to the file's cursor value 10). -/
theorem load_single_file_inserts_rows_twice :
    c3File.rows.length = 1
    ∧ load_data_to_duckdb [c3File] emptyDb = Except.ok c3LoadedDb
    ∧ c3LoadedDb.pokedex.length = 2 :=
  ⟨rfl, rfl, rfl⟩

/-! ## C9 — the watermark table after a load call -/

/-- C9 counterexample: starting from a `metadata` table with one NULL row —
a state with at most one row — the call completes, but
`UPDATE metadata SET last_id = ? WHERE last_id IS NOT NULL` matches nothing
and the empty-table insert never fires, so the watermark stays NULL instead
of becoming the last file's derived id 10. -/
theorem null_watermark_row_never_updated :
    dbNullRow.metadata.length ≤ 1
    ∧ lastIdOfPath (normalizePath c3File.path) = some 10
    ∧ load_data_to_duckdb [c3File] dbNullRow =
        Except.ok { pokedex := c3LoadedDb.pokedex, metadata := [none] }
    ∧ ([none] : List (Option Int)) ≠ [some 10] :=
  ⟨by decide, by decide, rfl, by decide⟩

/-- Invariant of the watermark table: empty, or a single non-null row. -/
def MetaInv (db : Db) : Prop :=
  db.metadata = [] ∨ ∃ v : Int, db.metadata = [some v]

/-- Helper: one pass-1 file step turns an empty-or-single-non-null
watermark table into the single row holding that file's id. -/
theorem loadFilePass1_metadata (f : ParquetFile) (db db' : Db)
    (hm : MetaInv db) (hok : loadFilePass1 db f = Except.ok db') :
    ∃ w : Int, lastIdOfPath (normalizePath f.path) = some w
      ∧ db'.metadata = [some w] := by
  unfold loadFilePass1 at hok
  split at hok
  · simp at hok
  next w hid =>
    split at hok
    · simp at hok
    next rs hrows =>
      simp at hok
      refine ⟨w, hid, ?_⟩
      rcases hm with hm | ⟨v, hm⟩
      · rw [← hok]
        simp [hm]
      · rw [← hok]
        simp [hm, metadataUpdateNonNull]

/-- Helper: same as `loadFilePass1_metadata`, for the second pass. -/
theorem loadFilePass2_metadata (f : ParquetFile) (db db' : Db)
    (hm : MetaInv db) (hok : loadFilePass2 db f = Except.ok db') :
    ∃ w : Int, lastIdOfPath (normalizePath f.path) = some w
      ∧ db'.metadata = [some w] := by
  unfold loadFilePass2 at hok
  split at hok
  · simp at hok
  next w hid =>
    split at hok
    · simp at hok
    next rs hrows =>
      simp at hok
      refine ⟨w, hid, ?_⟩
      rcases hm with hm | ⟨v, hm⟩
      · rw [← hok]
        simp [hm, metadataUpdateNonNull]
      · rw [← hok]
        simp [hm, metadataUpdateNonNull]

/-- Helper: folding either per-file step over a non-empty file list leaves
the watermark table as the single row of the last file's id. -/
theorem foldlM_metadata (g : Db → ParquetFile → Except Unit Db)
    (hg : ∀ f db db', MetaInv db → g db f = Except.ok db' →
      ∃ w : Int, lastIdOfPath (normalizePath f.path) = some w
        ∧ db'.metadata = [some w]) :
    ∀ (files : List ParquetFile) (db db' : Db), files ≠ [] → MetaInv db →
      files.foldlM g db = Except.ok db' →
      ∃ w : Int,
        lastIdOfPath (normalizePath (files.getLastD ⟨"", []⟩).path) = some w
        ∧ db'.metadata = [some w] := by
  intro files
  induction files with
  | nil => intro db db' h; exact absurd rfl h
  | cons f fs ih =>
    intro db db' _ hm hok
    rw [List.foldlM_cons] at hok
    rcases hstep : g db f with _ | mid
    · rw [hstep] at hok; simp [Bind.bind, Except.bind] at hok
    · rw [hstep] at hok
      simp [Bind.bind, Except.bind] at hok
      obtain ⟨w1, hw1, hmid⟩ := hg f db mid hm hstep
      rcases fs with _ | ⟨f2, fs2⟩
      · simp [List.foldlM, pure, Except.pure] at hok
        exact ⟨w1, by simpa using hw1, hok ▸ hmid⟩
      · have := ih mid db' (by simp) (Or.inr ⟨w1, hmid⟩) hok
        simpa using this

/-- C9 amended: when `load_data_to_duckdb` completes on a non-empty file
list from a state whose `metadata` table is empty or holds a single
**non-null** row, the table afterwards holds exactly one row, whose value is
the id derived from the last file's name.  (The counterexample shows the
non-null proviso is needed: a pre-existing NULL row is never replaced.) -/
theorem metadata_single_row_after_load (files : List ParquetFile)
    (db db' : Db) (hne : files ≠ []) (hm : MetaInv db)
    (hok : load_data_to_duckdb files db = Except.ok db') :
    ∃ w : Int,
      lastIdOfPath (normalizePath (files.getLastD ⟨"", []⟩).path) = some w
      ∧ db'.metadata = [some w] := by
  unfold load_data_to_duckdb at hok
  rw [if_neg hne] at hok
  rcases h1 : files.foldlM loadFilePass1 db with _ | db1
  · rw [h1] at hok; simp at hok
  · rw [h1] at hok
    obtain ⟨w1, hw1, hdb1⟩ :=
      foldlM_metadata loadFilePass1 loadFilePass1_metadata files db db1 hne hm h1
    exact foldlM_metadata loadFilePass2 loadFilePass2_metadata files db1 db'
      hne (Or.inr ⟨w1, hdb1⟩) hok

/-- Witness for C9's amended statement: loading `c3File` into a fresh
database leaves `metadata = [10]`, the id carried by the file's name. -/
theorem metadata_single_row_after_load_witness :
    ∃ w : Int, lastIdOfPath (normalizePath c3File.path) = some w
      ∧ c3LoadedDb.metadata = [some w] := by
  have h := metadata_single_row_after_load [c3File] emptyDb c3LoadedDb
    (by simp) (Or.inl rfl) rfl
  simpa using h

/-! ## C4 — missing `roadClosure` element -/

/-- C4 counterexample: on a document with no `roadClosure` element the
parser returns one row, but that row's `roadClosure` cell is the boolean
`False`, not null — the scalar extraction records `None`, and the
`astype(str).str.lower() == 'true'` conversion then maps `None` (stringified
to `"None"`) to `False`. -/
theorem missing_roadClosure_yields_boolean_false :
    (parse_traffic_response_to_dataframe (some docNoRoadClosure)).map
        TrafficRow.roadClosure = [Cell.boolean false]
    ∧ Cell.boolean false ≠ Cell.null := by
  refine ⟨by decide, by decide⟩

/-- C4 amended: for any document whose root has no `roadClosure` child (and
whose coordinate section raises nothing), the parser does not raise and
returns exactly one row; that row's `roadClosure` field is the boolean
`False` — null only before the boolean conversion, not in the returned
row-set. -/
theorem missing_roadClosure_parses_to_false (root : Xml)
    (cs : List (Rat × Rat))
    (h : findTag "roadClosure" root.children = none)
    (hc : collectCoords root = Except.ok cs) :
    ∃ row : TrafficRow,
      parse_traffic_response_to_dataframe (some root) = [row]
      ∧ row.roadClosure = .boolean false := by
  refine ⟨{ frc := strCell (scalarOf root "frc")
            currentSpeed := numericOf (scalarOf root "currentSpeed")
            freeFlowSpeed := numericOf (scalarOf root "freeFlowSpeed")
            currentTravelTime := numericOf (scalarOf root "currentTravelTime")
            freeFlowTravelTime := numericOf (scalarOf root "freeFlowTravelTime")
            confidence := numericOf (scalarOf root "confidence")
            roadClosure := roadClosureOf (scalarOf root "roadClosure")
            coordinate_count := cs.length
            coordinates := cs }, ?_, ?_⟩
  · simp [parse_traffic_response_to_dataframe, hc]
  · show roadClosureOf (scalarOf root "roadClosure") = .boolean false
    unfold scalarOf
    rw [h]
    decide

/-- Witness for C4's amended statement at the concrete document. -/
theorem missing_roadClosure_parses_to_false_witness :
    ∃ row : TrafficRow,
      parse_traffic_response_to_dataframe (some docNoRoadClosure) = [row]
      ∧ row.roadClosure = .boolean false :=
  missing_roadClosure_parses_to_false docNoRoadClosure [] rfl rfl

/-! ## C7 — derived-id extraction from the URL -/

/-- Helper: the maximal digit run of an all-digit list followed by a slash
is the whole list. -/
theorem takeDigits_append_slash (s : List Char) (hd : ∀ c ∈ s, c.isDigit) :
    takeDigits (s ++ ['/']) = (s, ['/']) := by
  induction s with
  | nil => decide
  | cons c cs ih =>
    have hc : c.isDigit := hd c (List.mem_cons_self c cs)
    have ih' := ih fun x hx => hd x (List.mem_cons_of_mem c hx)
    simp [takeDigits, hc, ih']

/-- Helper: the leftmost-match scan steps over a position where the pattern
does not match. -/
theorem find_step (c : Char) (cs : List Char)
    (h : matchPokemonAt (c :: cs) = none) :
    findPokemonGroup (c :: cs) = findPokemonGroup cs := by
  simp [findPokemonGroup, h]

/-- C7: for every non-empty digit string `s`, the derived-identifier
extraction applied to a PokeAPI URL ending in `/pokemon/{s}/` yields the
number `s` denotes; in particular a URL ending in `/pokemon/25/` yields 25. -/
theorem pokemon_id_extracted_from_url (s : List Char) (hne : s ≠ [])
    (hd : ∀ c ∈ s, c.isDigit) :
    pokemonIdOfUrl ("https://pokeapi.co/api/v2/pokemon/" ++ String.mk s ++ "/")
      = some (digitsToNat s : Int) := by
  have hdata : ("https://pokeapi.co/api/v2/pokemon/" ++ String.mk s ++ "/").data
      = "https://pokeapi.co/api/v2/pokemon/".data ++ (s ++ ['/']) := by
    simp [String.data_append]
  unfold pokemonIdOfUrl
  rw [hdata]
  have hfind : findPokemonGroup
      ("https://pokeapi.co/api/v2/pokemon/".data ++ (s ++ ['/'])) = some s := by
    show findPokemonGroup ('h' :: 't' :: 't' :: 'p' :: 's' :: ':' :: '/' :: '/' ::
      'p' :: 'o' :: 'k' :: 'e' :: 'a' :: 'p' :: 'i' :: '.' :: 'c' :: 'o' :: '/' ::
      'a' :: 'p' :: 'i' :: '/' :: 'v' :: '2' :: '/' :: 'p' :: 'o' :: 'k' :: 'e' ::
      'm' :: 'o' :: 'n' :: '/' :: (s ++ ['/'])) = some s
    iterate 25 rw [find_step _ _ (by rfl)]
    simp only [findPokemonGroup, matchPokemonAt, takeDigits_append_slash s hd]
    simp [hne]
  rw [hfind]
  rfl

/-- Witness for C7 at the URL `…/pokemon/25/`: the extracted id is 25. -/
theorem pokemon_id_extracted_from_url_witness :
    (['2', '5'] : List Char) ≠ []
    ∧ pokemonIdOfUrl "https://pokeapi.co/api/v2/pokemon/25/" = some 25 := by
  constructor
  · decide
  · have h := pokemon_id_extracted_from_url ['2', '5'] (by decide) (by decide)
    simpa using h

end ETL
